import Mathlib

/-!
Verification of the WiFi Connection Orchestrator of the poetry-camera
repository (src/wifi_portal/app.py) against its natural-language
specification.

The Python code is shallowly embedded: the external network-management
tool is a parameter (a function from the invoked command line to its
captured output), the persisted config file is an explicit file-state
value, and Python runtime errors (AttributeError, TypeError,
FileNotFoundError, json.JSONDecodeError) are modelled with `Except`.
-/

/-- Python exceptions that the embedded code can raise or catch. -/
inductive PyError
  | fileNotFoundError
  | jsonDecodeError
  | attributeError
  | typeError
deriving DecidableEq, Repr

/-- Does `needle` occur at the start of `hay`? (character-list level). -/
def listStartsWith : List Char → List Char → Bool
  | [], _ => true
  | _ :: _, [] => false
  | a :: as, b :: bs => a == b && listStartsWith as bs

/-- Does `needle` occur anywhere in `hay`? (character-list level). -/
def listContains (needle : List Char) : List Char → Bool
  | [] => needle.isEmpty
  | c :: cs => listStartsWith needle (c :: cs) || listContains needle cs

/-- The Python substring test: `needle in hay` for `str` values. -/
def pyIn (needle hay : String) : Bool :=
  listContains needle.data hay.data

/-- ASCII lowering of one character, as Python `str.lower` acts on the
ASCII range (every pattern the classifier matches is ASCII). -/
def pyCharLower (c : Char) : Char :=
  if 65 ≤ c.toNat ∧ c.toNat ≤ 90 then Char.ofNat (c.toNat + 32) else c

/-- The Python `text.lower()` call of the classifier, modelled on the
ASCII range. -/
def pyLower (s : String) : String :=
  ⟨s.data.map pyCharLower⟩

/-- Python truthiness of an optional string (`if password:`):
`None` and the empty string are falsy. -/
def pyTruthy : Option String → Bool
  | none => false
  | some s => s != ""

/-- Decoded output of one `subprocess.run` invocation of the external
network-management tool (`CompletedProcess.stdout` / `.stderr`). -/
structure ProcResult where
  stdout : String
  stderr : String
deriving DecidableEq, Repr

/-- A Python value of the immediate submit path: `attempt_connect_hotspot`
returns a `str`, while the classification block below it expects a
`CompletedProcess`.  Attribute lookup is dynamic, so the distinction only
surfaces at run time. -/
inductive PyVal
  | pyStr (s : String)
  | pyProc (p : ProcResult)
deriving DecidableEq, Repr

/-- Python attribute access `v.stderr`: succeeds on a `CompletedProcess`,
raises `AttributeError` on a `str`. -/
def getattrStderr : PyVal → Except PyError String
  | .pyProc p => .ok p.stderr
  | .pyStr _ => .error .attributeError

/-- Python attribute access `v.stdout`: succeeds on a `CompletedProcess`,
raises `AttributeError` on a `str`. -/
def getattrStdout : PyVal → Except PyError String
  | .pyProc p => .ok p.stdout
  | .pyStr _ => .error .attributeError

/-!
## ConfigStore (app.py lines 101-137)

The config file `hotspot_config.json` is modelled by an explicit state:
absent, present with ill-formed content (not valid JSON), or present
with a JSON object as written by `json.dump` on a string-keyed dict of
strings (the only shape this program ever writes).  `json.load` returns
the stored object for well-formed content and raises
`json.JSONDecodeError` otherwise.
-/

/-- State of the persisted `hotspot_config.json` file. -/
inductive FileState
  | absent
  | corrupt (raw : String)
  | stored (record : List (String × String))
deriving DecidableEq, Repr

/-- Content handed to `json.load` after a successful `open`. -/
inductive FileContent
  | wellFormed (record : List (String × String))
  | illFormed (raw : String)
deriving DecidableEq, Repr

/-- `open(config_file, "r")` + read: raises `FileNotFoundError` when the
file is absent, otherwise yields the file content. -/
def pyOpenRead : FileState → Except PyError FileContent
  | .absent => .error .fileNotFoundError
  | .corrupt r => .ok (.illFormed r)
  | .stored rec => .ok (.wellFormed rec)

/-- `json.load`: parses well-formed content back to the stored object,
raises `json.JSONDecodeError` on anything else. -/
def json_load : FileContent → Except PyError (List (String × String))
  | .wellFormed rec => .ok rec
  | .illFormed _ => .error .jsonDecodeError

/-- The `try ... except FileNotFoundError: return {}` wrapper of
`load_hotspot_config`: only `FileNotFoundError` is caught. -/
def pyCatchFNF (x : Except PyError (List (String × String)))
    (default : List (String × String)) : Except PyError (List (String × String)) :=
  match x with
  | .error .fileNotFoundError => .ok default
  | r => r

/-- `load_hotspot_config` (app.py lines 120-125): read and JSON-parse the
config file, returning `{}` only for an absent file. -/
def load_hotspot_config (fs : FileState) : Except PyError (List (String × String)) :=
  pyCatchFNF (pyOpenRead fs >>= json_load) []

/-- The dict built by `save_hotspot_config` (app.py lines 131-135):
`{"ssid": ssid, "password": password}` when `password` is truthy,
`{"ssid": ssid}` otherwise. -/
def hotspot_config (ssid : String) : Option String → List (String × String)
  | some p => if p != "" then [("ssid", ssid), ("password", p)] else [("ssid", ssid)]
  | none => [("ssid", ssid)]

/-- `save_hotspot_config` (app.py lines 131-137): `open(config_file, "w")`
truncates, so the new record fully replaces any prior file state. -/
def save_hotspot_config (ssid : String) (password : Option String)
    (_fs : FileState) : FileState :=
  .stored (hotspot_config ssid password)

/-!
## NetworkManagerGateway side: connect command and attempt
(app.py lines 166-184)
-/

/-- The `nmcli` command list built by `attempt_connect_hotspot`
(app.py lines 175-177): the password arguments are appended only when
`password and len(password) > 0`. -/
def connection_command (ssid : String) (password : Option String) : List String :=
  let base := ["nmcli", "--colors", "no", "device", "wifi", "connect", ssid]
  match password with
  | some p => if p != "" then base ++ ["password", p] else base
  | none => base

/-- `attempt_connect_hotspot` (app.py lines 166-184): runs the connection
command through the external tool and returns a formatted string.  The
tool is a parameter mapping the invoked command line to its output. -/
def attempt_connect_hotspot (ssid : String) (password : Option String)
    (tool : List String → ProcResult) : String :=
  let result := tool (connection_command ssid password)
  if result.stderr != "" then "Error: " ++ result.stderr
  else if result.stdout != "" then "Success: " ++ result.stdout
  else "Unknown error."

/-!
## ErrorClassifier (app.py lines 275-311)

The classification block of `submit`, as a function of the decoded
stdout/stderr texts of one tool invocation.  `response_data` starts as
`{"status": "error", "message": "Could not connect. Please try again."}`
and is updated by the `if result.stderr: ... elif result.stdout: ...`
chain.
-/

/-- One classified outcome: the `status` and `message` fields of
`response_data` after the classification block. -/
structure Resp where
  status : String
  message : String
deriving DecidableEq, Repr

/-- The classification block of `submit` (app.py lines 275-311) as a pure
function of the decoded stdout and stderr texts. -/
def classify (stdout stderr : String) : Resp :=
  if stderr != "" then
    let stderr_message := pyLower stderr
    if pyIn "psk: property is invalid" stderr_message then
      ⟨"error", "Wrong password"⟩
    else
      ⟨"error", stderr_message⟩
  else if stdout != "" then
    let stdout_message := pyLower stdout
    if pyIn "successfully activated" stdout_message then
      ⟨"success", stdout⟩
    else if pyIn "connection activation failed" stdout_message then
      ⟨"error", "Connection activation failed."⟩
    else if pyIn "no network with ssid" stdout_message then
      ⟨"error", "Could not find a wifi network with the specified SSID."⟩
    else if pyIn "no valid secrets" stdout_message then
      ⟨"error", "Wrong password"⟩
    else if pyIn "no suitable device found" stdout_message then
      ⟨"error", "Could not connect. Possible hardware issue."⟩
    else if pyIn "device not ready" stdout_message then
      ⟨"error", "The device is not ready."⟩
    else if pyIn "invalid password" stdout_message then
      ⟨"error", "Wrong password"⟩
    else if pyIn "could not be found or the password is incorrect" stdout_message then
      ⟨"error", "The password is incorrect or the network could not be found."⟩
    else
      ⟨"error", stdout⟩
  else
    ⟨"error", "Could not connect. Please try again."⟩

/-- The ordered stdout rule table of the classifier, written as the
specification states it (pattern, outcome built from the raw stdout). -/
def stdoutRules : List (String × (String → Resp)) :=
  [("successfully activated", fun out => ⟨"success", out⟩),
   ("connection activation failed", fun _ => ⟨"error", "Connection activation failed."⟩),
   ("no network with ssid", fun _ => ⟨"error", "Could not find a wifi network with the specified SSID."⟩),
   ("no valid secrets", fun _ => ⟨"error", "Wrong password"⟩),
   ("no suitable device found", fun _ => ⟨"error", "Could not connect. Possible hardware issue."⟩),
   ("device not ready", fun _ => ⟨"error", "The device is not ready."⟩),
   ("invalid password", fun _ => ⟨"error", "Wrong password"⟩),
   ("could not be found or the password is incorrect", fun _ => ⟨"error", "The password is incorrect or the network could not be found."⟩)]

/-- First-match-wins lookup over a rule table: the first pattern occurring
in `hay` selects the outcome, applied to the raw text `arg`. -/
def firstMatch (hay arg : String) : List (String × (String → Resp)) → Resp → Resp
  | [], d => d
  | (p, mk) :: rest, d => if pyIn p hay then mk arg else firstMatch hay arg rest d

/-- The classifier as the (amended) specification words it: stderr takes
full precedence when non-empty (psk rule, else unclassified stderr); only
with empty stderr are the stdout rules tried in order, matched
case-insensitively; both streams empty gives the unknown default. -/
def classifySpec (stdout stderr : String) : Resp :=
  if stderr != "" then
    if pyIn "psk: property is invalid" (pyLower stderr) then
      ⟨"error", "Wrong password"⟩
    else
      ⟨"error", pyLower stderr⟩
  else if stdout != "" then
    firstMatch (pyLower stdout) stdout stdoutRules ⟨"error", stdout⟩
  else
    ⟨"error", "Could not connect. Please try again."⟩

/-!
## Background retry loop (app.py lines 253-261) and its launch (line 265)

`hotspot_scanning` runs `while time.time() < end_time` with
`end_time = time.time() + 120`, one connection attempt per iteration,
breaking when the attempt result contains "Success", else sleeping 5
seconds.  Time is modelled in whole seconds starting at 0, attempts as
instantaneous, and the external world as an oracle `outcomes k` telling
whether attempt number `k` satisfies the `"Success" in result` test.
The loop is written with fuel (each iteration advances time by 5, so
fuel 32 covers the 120-second window with slack).
-/

/-- One run of the `while time.time() < end_time` loop body of
`hotspot_scanning`: returns the list of attempt start times and the time
at which the loop terminates. -/
def retry_loop (outcomes : Nat → Bool) (end_time : Nat) :
    Nat → Nat → Nat → List Nat × Nat
  | 0, t, _ => ([], t)
  | fuel + 1, t, k =>
    if t < end_time then
      if outcomes k then ([t], t)
      else
        let r := retry_loop outcomes end_time fuel (t + 5) (k + 1)
        (t :: r.1, r.2)
    else ([], t)

/-- `hotspot_scanning` (app.py lines 253-261): the 120-second retry loop,
started at time 0 with attempt counter 0. -/
def hotspot_scanning (outcomes : Nat → Bool) : List Nat × Nat :=
  retry_loop outcomes 120 32 0 0

/-- `def hotspot_scanning():` declares no parameters (app.py line 253). -/
def hotspot_scanning_param_count : Nat := 0

/-- `threading.Thread(target=hotspot_scanning, args=(ssid, password))`
passes two positional arguments (app.py line 265). -/
def thread_args_count : Nat := 2

/-- The thread start semantics: `Thread.run` calls `target(*args)`, which
raises `TypeError` inside the thread when the argument count does not
match the target function's parameter count. -/
def thread_call (argCount paramCount : Nat) (body : List Nat × Nat) :
    Except PyError (List Nat × Nat) :=
  if argCount = paramCount then .ok body else .error .typeError

/-- What the spawned background session actually executes: the thread
started at app.py line 265 calls the zero-parameter `hotspot_scanning`
with two arguments. -/
def start_background_session (outcomes : Nat → Bool) :
    Except PyError (List Nat × Nat) :=
  thread_call thread_args_count hotspot_scanning_param_count
    (hotspot_scanning outcomes)

/-!
## The submit route (app.py lines 247-316)

Process-level state relevant to the claims: the config file and the
number of background session threads that have been started.  The
`manual_connect` branch saves the config, then starts a thread, then
returns the fixed info reply; the immediate branch calls
`attempt_connect_hotspot` and feeds its result to the classification
block, whose first step is the attribute access `result.stderr`.
-/

/-- Process state seen by the submit route. -/
structure PortalState where
  config : FileState
  started_sessions : Nat
deriving DecidableEq, Repr

/-- The `save_hotspot_config(ssid, password)` call of the background
branch (app.py line 264), as a state update. -/
def write_config (ssid : String) (password : Option String)
    (s : PortalState) : PortalState :=
  { s with config := save_hotspot_config ssid password s.config }

/-- The `threading.Thread(...).start()` call of the background branch
(app.py line 265): unconditionally spawns one more session thread; no
prior session is cancelled, superseded or rejected. -/
def launch_session (s : PortalState) : PortalState :=
  { s with started_sessions := s.started_sessions + 1 }

/-- The fixed reply of the background branch (app.py lines 266-271): a
JSON payload with exactly the keys `status` and `message`. -/
def bg_response (ssid : String) : List (String × String) :=
  [("status", "info"),
   ("message", "Attempting to connect to the " ++ ssid ++
     " network. If you are using a hotspot, go to your hotspot settings page and leave it open so it can connect. This could take up to 2 minutes.")]

/-- The background (`manual_connect`) branch of `submit`
(app.py lines 263-271): save the config, start the session thread,
return the info payload. -/
def submit_background (ssid : String) (password : Option String)
    (s : PortalState) : List (String × String) × PortalState :=
  (bg_response ssid, launch_session (write_config ssid password s))

/-- The immediate branch of `submit` (app.py lines 273-316).
`attempt_connect_hotspot` returns a `str`; the classification block then
performs the attribute accesses `result.stderr` and `result.stdout` and,
were they to succeed, would build the response from the classification
plus the `internet_status`/`ssid` fields of `get_network_status` (passed
here as `net`).  The portal state is returned unchanged: this branch
never writes the config file. -/
def submit_immediate (ssid : String) (password : Option String)
    (tool : List String → ProcResult) (net : String × String)
    (s : PortalState) :
    Except PyError (List (String × String)) × PortalState :=
  let result := PyVal.pyStr (attempt_connect_hotspot ssid password tool)
  ((do
      let se ← getattrStderr result
      let so ← getattrStdout result
      let r := classify so se
      pure [("status", r.status), ("message", r.message),
            ("internet_status", net.1), ("ssid", net.2)]),
   s)

/-!
## Network scanning (app.py lines 210-222)
-/

/-- The scan-result filtering of `index` (app.py lines 219-222): drop
every raw entry containing "PoetryCameraSetup", strip the first five
characters (the "SSID:" tag), drop empty strings, and de-duplicate
(`list(set(...))`, modelled order-preservingly by `List.dedup`). -/
def listAvailableNetworks (raw : List String) : List String :=
  let ssids_list := (raw.filter (fun s => !pyIn "PoetryCameraSetup" s)).map
    (fun s => s.drop 5)
  (ssids_list.filter (fun s => s != "")).dedup

/-!
## Theorems
-/

/-- Claim C1, counterexample: the claim reads the priority table flat, so
with stdout "successfully activated" and a non-psk, non-empty stderr it
predicts Success; the code gives stderr full precedence and returns the
unclassified-stderr failure instead. -/
theorem C1_counterexample :
    classify "successfully activated" "Warning: xyz" = ⟨"error", "warning: xyz"⟩ ∧
    (classify "successfully activated" "Warning: xyz").status ≠ "success" := by
  decide

/-- Claim C1 (amended): classification is a total, deterministic, pure
function of the two texts, matched case-insensitively, with stderr taking
full precedence when non-empty: stderr containing "psk: property is
invalid" gives WrongPassword, any other non-empty stderr gives the
unclassified-stderr failure (carrying the lowercased stderr); only when
stderr is empty are the stdout rules applied first-match-wins in the
stated order, a non-empty unmatched stdout gives the unclassified-stdout
failure, and two empty texts give the unknown default.  Stated as:
`classify` (embedded from the code) coincides everywhere with
`classifySpec` (written from the amended rule table). -/
theorem C1_classifier_stderr_precedence :
    ∀ stdout stderr : String, classify stdout stderr = classifySpec stdout stderr :=
  fun _ _ => rfl

/-- Claim C2 (code bug): on the immediate submit path,
`attempt_connect_hotspot` returns a `str`, and the classification block
immediately evaluates `result.stderr` on it, so for every identity,
credential and tool behaviour the route raises `AttributeError` instead
of returning a structured outcome. -/
theorem C2_submit_immediate_raises :
    ∀ (ssid : String) (password : Option String)
      (tool : List String → ProcResult) (net : String × String)
      (s : PortalState),
      (submit_immediate ssid password tool net s).1 =
        Except.error PyError.attributeError :=
  fun _ _ _ _ _ => rfl

/-- Claim C3 (code bug): the retry loop body itself attempts at times
0, 5, ..., 115 and stops exactly at 120 when every attempt fails, and
stops immediately at a successful attempt (here attempt number 2, at
time 10); but the thread launched for a background session calls the
zero-parameter `hotspot_scanning` with two positional arguments, so
every session dies at its start with `TypeError` and performs no
attempt at all. -/
theorem C3_retry_loop_and_thread_start :
    hotspot_scanning (fun _ => false) =
      ([0, 5, 10, 15, 20, 25, 30, 35, 40, 45, 50, 55, 60, 65, 70, 75, 80,
        85, 90, 95, 100, 105, 110, 115], 120) ∧
    hotspot_scanning (fun k => k == 2) = ([0, 5, 10], 10) ∧
    start_background_session (fun _ => false) =
      Except.error PyError.typeError :=
  ⟨rfl, rfl, rfl⟩

/-- Claim C4, counterexample: on a config file holding content that is
not valid JSON, `load_hotspot_config` raises `json.JSONDecodeError`
(only `FileNotFoundError` is caught), rather than returning the NotFound
value `{}`. -/
theorem C4_counterexample :
    load_hotspot_config (FileState.corrupt "oops") =
      Except.error PyError.jsonDecodeError ∧
    load_hotspot_config (FileState.corrupt "oops") ≠ Except.ok [] :=
  ⟨rfl, fun h => Except.noConfusion h⟩

/-- Claim C4 (amended): `load` returns the last-saved record when the
file holds well-formed content, returns the NotFound value `{}` without
raising when no record file exists, but raises an uncaught
`json.JSONDecodeError` when the stored content is corrupt — corrupt data
is not treated like absent data. -/
theorem C4_load_hotspot_config_behavior :
    ∀ (r : String) (rec : List (String × String)),
      load_hotspot_config FileState.absent = Except.ok [] ∧
      load_hotspot_config (FileState.corrupt r) =
        Except.error PyError.jsonDecodeError ∧
      load_hotspot_config (FileState.stored rec) = Except.ok rec :=
  fun _ _ => ⟨rfl, rfl, rfl⟩

/-- Claim C5, counterexample: the code excludes any raw entry containing
"PoetryCameraSetup" as a substring, so a distinct network whose name
merely contains the setup name is dropped, contradicting the claimed
exact-name-match exclusion. -/
theorem C5_counterexample :
    listAvailableNetworks ["SSID:PoetryCameraSetupX"] = [] ∧
    "PoetryCameraSetupX" ∉ listAvailableNetworks ["SSID:PoetryCameraSetupX"] ∧
    "PoetryCameraSetupX" ≠ "PoetryCameraSetup" := by
  decide

/-- Claim C5 (amended): the returned list contains exactly the non-empty
5-character-stripped forms of the raw entries not containing
"PoetryCameraSetup" as a substring (so the setup network, and also any
entry merely containing its name, is excluded), with duplicates
collapsed; on the example input it returns exactly {HomeNet}. -/
theorem C5_scan_filtering :
    (∀ (raw : List String) (x : String),
        x ∈ listAvailableNetworks raw ↔
          x ≠ "" ∧ ∃ s, s ∈ raw ∧
            pyIn "PoetryCameraSetup" s = false ∧ s.drop 5 = x) ∧
    (∀ raw : List String, (listAvailableNetworks raw).Nodup) ∧
    listAvailableNetworks
      ["SSID:HomeNet", "SSID:PoetryCameraSetup", "SSID:HomeNet", "SSID:"] =
      ["HomeNet"] := by
  refine ⟨fun raw x => ?_, fun raw => List.nodup_dedup _, by decide⟩
  simp only [listAvailableNetworks, List.mem_dedup, List.mem_filter,
    List.mem_map, bne_iff_ne, ne_eq, Bool.not_eq_true', decide_eq_true_eq]
  tauto

/-- Claim C6 (code bug): each background-mode submit unconditionally
starts one more session thread — there is no cancellation, supersession
or rejection — so two background submits leave two started sessions, not
the claimed single active one. -/
theorem C6_two_background_sessions :
    ((submit_background "HomeNet" (some "pw")
        (submit_background "HomeNet" (some "pw")
          ⟨FileState.absent, 0⟩).2).2).started_sessions = 2 :=
  rfl

/-- Claim C7, counterexample: the background-mode reply carries exactly
the keys status and message; none of the keys ssid, internet_status,
identity or connectivityStatus required by the claim is present. -/
theorem C7_counterexample :
    (submit_background "HomeNet" (some "pw")
        ⟨FileState.absent, 0⟩).1.map Prod.fst = ["status", "message"] ∧
    "ssid" ∉ (submit_background "HomeNet" (some "pw")
        ⟨FileState.absent, 0⟩).1.map Prod.fst ∧
    "internet_status" ∉ (submit_background "HomeNet" (some "pw")
        ⟨FileState.absent, 0⟩).1.map Prod.fst ∧
    "identity" ∉ (submit_background "HomeNet" (some "pw")
        ⟨FileState.absent, 0⟩).1.map Prod.fst ∧
    "connectivityStatus" ∉ (submit_background "HomeNet" (some "pw")
        ⟨FileState.absent, 0⟩).1.map Prod.fst := by
  decide

/-- Claim C7 (amended): for every submit call in background mode the
immediate reply has status "info" together with the fixed explanatory
human-readable message naming the target network, and that payload
contains exactly the fields status and message — the identity and
connectivity-status fields are added only on the immediate-mode path. -/
theorem C7_background_reply :
    ∀ (ssid : String) (password : Option String) (s : PortalState),
      (submit_background ssid password s).1 =
        [("status", "info"),
         ("message", "Attempting to connect to the " ++ ssid ++
           " network. If you are using a hotspot, go to your hotspot settings page and leave it open so it can connect. This could take up to 2 minutes.")] ∧
      (submit_background ssid password s).1.map Prod.fst =
        ["status", "message"] :=
  fun _ _ _ => ⟨rfl, rfl⟩

/-- Claim C8 (confirmed): persistence is mode-specific.  A background
submit first writes the config record and only then launches the session
thread (its final state is literally `launch_session` applied to the
state already updated by `write_config`), and the persisted record is
the serialized identity/credential pair; an immediate attempt returns
the portal state — config file included — unchanged. -/
theorem C8_persistence_asymmetry :
    ∀ (ssid : String) (password : Option String)
      (tool : List String → ProcResult) (net : String × String)
      (s : PortalState),
      (submit_background ssid password s).2 =
        launch_session (write_config ssid password s) ∧
      (submit_background ssid password s).2.config =
        FileState.stored (hotspot_config ssid password) ∧
      (submit_immediate ssid password tool net s).2 = s :=
  fun _ _ _ _ _ => ⟨rfl, rfl, rfl⟩

/-- Claim C9 (confirmed): load on a store with no prior save returns the
NotFound value `{}`; for every identity and non-empty credential, save
followed by load returns exactly the two-field record; and saving twice
with identical input is idempotent — the second save fully replaces the
first, leaving a single record with no duplication. -/
theorem C9_save_load_roundtrip (ssid pw : String) (fs : FileState)
    (h : pw ≠ "") :
    load_hotspot_config FileState.absent = Except.ok [] ∧
    load_hotspot_config (save_hotspot_config ssid (some pw) fs) =
      Except.ok [("ssid", ssid), ("password", pw)] ∧
    save_hotspot_config ssid (some pw) (save_hotspot_config ssid (some pw) fs) =
      save_hotspot_config ssid (some pw) fs := by
  have hb : (pw != "") = true := bne_iff_ne.mpr h
  have hc : hotspot_config ssid (some pw) = [("ssid", ssid), ("password", pw)] := by
    simp [hotspot_config, hb]
  refine ⟨rfl, ?_, rfl⟩
  calc load_hotspot_config (save_hotspot_config ssid (some pw) fs)
      = Except.ok (hotspot_config ssid (some pw)) := rfl
    _ = Except.ok [("ssid", ssid), ("password", pw)] := by rw [hc]

/-- Witness for C9 at ssid HomeNet, credential secret, empty store. -/
theorem C9_save_load_roundtrip_witness :
    ("secret" : String) ≠ "" ∧
    (load_hotspot_config FileState.absent = Except.ok [] ∧
     load_hotspot_config (save_hotspot_config "HomeNet" (some "secret")
        FileState.absent) = Except.ok [("ssid", "HomeNet"), ("password", "secret")] ∧
     save_hotspot_config "HomeNet" (some "secret")
        (save_hotspot_config "HomeNet" (some "secret") FileState.absent) =
       save_hotspot_config "HomeNet" (some "secret") FileState.absent) :=
  ⟨by decide, C9_save_load_roundtrip "HomeNet" "secret" FileState.absent (by decide)⟩

/-- Claim C10 (confirmed): an empty-string credential is
indistinguishable from an absent one at the public interface — the saved
record is the ssid-only record with no password key, and the connect
command (and hence the whole attempt) is built without any password
arguments. -/
theorem C10_empty_credential :
    ∀ (ssid : String) (fs : FileState) (tool : List String → ProcResult),
      save_hotspot_config ssid (some "") fs = save_hotspot_config ssid none fs ∧
      hotspot_config ssid (some "") = [("ssid", ssid)] ∧
      connection_command ssid (some "") = connection_command ssid none ∧
      connection_command ssid none =
        ["nmcli", "--colors", "no", "device", "wifi", "connect", ssid] ∧
      attempt_connect_hotspot ssid (some "") tool =
        attempt_connect_hotspot ssid none tool :=
  fun _ _ _ => ⟨rfl, rfl, rfl, rfl, rfl⟩
